import Mathlib

/-!
Verification of the dragoneye-python classification client
(`src/dragoneye/classification.py`, `src/dragoneye/models.py`,
`src/dragoneye/types/{image,media,exception}.py`).

The asynchronous HTTP world is embedded as an explicit oracle
(`ServerEnv`) giving each round trip's outcome, and every operation
returns its value in `Except PyErr` together with the list of network
events it performed, so that call-count, header and ordering
properties can be stated.  The polling loop of
`_wait_for_prediction_task_completion` is embedded with explicit fuel:
`none` means the loop has not returned within the given number of
iterations.
-/

namespace Dragoneye

/-- A JSON value as produced by `resp.json()`.  Python floats/ints are
both carried as `Rat`; object member order is the order of the JSON
document, matching Python dict insertion order. -/
inductive Json where
  | null
  | bool (b : Bool)
  | num (q : Rat)
  | str (s : String)
  | arr (elems : List Json)
  | obj (fields : List (String × Json))

mutual

/-- Python `str(v)` applied to a JSON-decoded value, as done by
`_upload_media_to_prediction_task` on each presigned field value.  On
the string case — the case presigned fields actually carry — it is the
identity; container rendering approximates Python `repr` (inner string
quoting is not reproduced, which no property here depends on). -/
def pyStr : Json → String
  | .null => "None"
  | .bool b => if b then "True" else "False"
  | .num q => toString q
  | .str s => s
  | .arr es => "[" ++ pyStrList es ++ "]"
  | .obj kvs => "\x7b" ++ pyStrObj kvs ++ "\x7d"

/-- Comma-separated rendering of a JSON array's elements. -/
def pyStrList : List Json → String
  | [] => ""
  | [j] => pyStr j
  | j :: rest => pyStr j ++ ", " ++ pyStrList rest

/-- Comma-separated rendering of a JSON object's members. -/
def pyStrObj : List (String × Json) → String
  | [] => ""
  | [(k, v)] => k ++ ": " ++ pyStr v
  | (k, v) :: rest => k ++ ": " ++ pyStr v ++ ", " ++ pyStrObj rest

end

/-- Member lookup in a JSON object (`payload["key"]` read access);
`none` on a missing key or a non-object. -/
def Json.getField (j : Json) (key : String) : Option Json :=
  match j with
  | .obj kvs => kvs.lookup key
  | _ => none

/-- Python dict assignment `d[key] = v`: replaces the value at an
existing key in place, otherwise appends the pair at the end
(insertion order). -/
def setKV : List (String × Json) → String → Json → List (String × Json)
  | [], key, v => [(key, v)]
  | (k, w) :: rest, key, v =>
      if k = key then (key, v) :: rest else (k, w) :: setKV rest key v

/-- Modelled from the spec: `PredictionType` from the missing
`dragoneye/types/common.py` — `Literal["image", "video"]`. -/
inductive PredictionType where
  | image
  | video
deriving DecidableEq

/-- The literal string of a prediction type, as interpolated into
error messages. -/
def PredictionType.toStr : PredictionType → String
  | .image => "image"
  | .video => "video"

/-- Python `s.startswith(pre)`: the characters of `pre` are an initial
segment of the characters of `s`. -/
def strStartsWith (s pre : String) : Bool :=
  pre.toList.isPrefixOf s.toList

/-- Python `mime_type.split("/")[0]`: the characters before the first
`/` (the whole string when there is none; `split` always returns a
non-empty list, so the `[0]` access never fails). -/
def mimeMainType (mime : String) : String :=
  String.mk (mime.toList.takeWhile (fun c => c ≠ '/'))

/-- Embedding of `_is_task_successful` (classification.py): success is exactly the
literal status `predicted`. -/
def _is_task_successful (status : String) : Bool :=
  status == "predicted"

/-- Embedding of `_is_task_failed` (classification.py): failure is any status whose
name begins with the literal string `failed`
(`status.startswith("failed")`). -/
def _is_task_failed (status : String) : Bool :=
  strStartsWith status "failed"

/-- Embedding of `_is_task_complete` (classification.py): complete means successful
or failed; the status set is deliberately open-ended. -/
def _is_task_complete (status : String) : Bool :=
  _is_task_successful status || _is_task_failed status

/-! ## Data model (`models.py` and the spec-modelled `types/common.py`) -/

/-- Modelled from the spec: `TaxonPrediction` from the missing
`dragoneye/types/common.py` — the leaf value type
`\x7btaxonId, name, confidence\x7d` referenced by both result variants. -/
structure TaxonPrediction where
  taxonId : String
  name : String
  confidence : Rat
deriving DecidableEq

/-- Modelled from the spec: `NormalizedBbox` from the missing
`dragoneye/types/common.py` — a normalized bounding box, carried as
four rational coordinates. -/
structure NormalizedBbox where
  xMin : Rat
  yMin : Rat
  xMax : Rat
  yMax : Rat
deriving DecidableEq

/-- Embedding of `ClassificationTraitRootPrediction` (models.py): a trait root
taxon with its nested taxon predictions. -/
structure ClassificationTraitRootPrediction where
  id : String
  name : String
  displayName : String
  taxons : List TaxonPrediction
deriving DecidableEq

/-- Embedding of `ClassificationObjectPrediction` (models.py). -/
structure ClassificationObjectPrediction where
  normalizedBbox : NormalizedBbox
  category : TaxonPrediction
  traits : List ClassificationTraitRootPrediction
deriving DecidableEq

/-- Embedding of `ClassificationPredictImageResponse` (models.py): its only
declared field is `predictions`; in particular it declares no
`prediction_task_uuid` field. -/
structure ClassificationPredictImageResponse where
  predictions : List ClassificationObjectPrediction
deriving DecidableEq

/-- Embedding of `ClassificationVideoObjectPrediction` (models.py): extends
`ClassificationObjectPrediction` with frame data. -/
structure ClassificationVideoObjectPrediction where
  normalizedBbox : NormalizedBbox
  category : TaxonPrediction
  traits : List ClassificationTraitRootPrediction
  frame_id : String
  frame_index : Int
  timestamp_microseconds : Int
deriving DecidableEq

/-- Embedding of `ClassificationPredictVideoResponse` (models.py).  The timestamp
keys (`dict[float, ...]`) are kept as the JSON object's string keys;
their parsing into floats plays no role in any property below. -/
structure ClassificationPredictVideoResponse where
  timestamp_to_predictions : List (String × List ClassificationVideoObjectPrediction)
  frames_per_second : Int
deriving DecidableEq

/-- Embedding of `PredictionTaskStatusResponse` (models.py). -/
structure PredictionTaskStatusResponse where
  prediction_task_uuid : String
  prediction_type : PredictionType
  status : String
deriving DecidableEq

/-- Embedding of `_PresignedPostRequest` (classification.py): `url` plus the
presigned fields, a `dict[str, Any]` carried in JSON member order. -/
structure _PresignedPostRequest where
  url : String
  fields : List (String × Json)

/-- Embedding of `_MediaUploadUrl` (classification.py). -/
structure _MediaUploadUrl where
  blob_path : String
  presigned_post_request : _PresignedPostRequest

/-- Embedding of `_PredictionTaskBeginResponse` (classification.py). -/
structure _PredictionTaskBeginResponse where
  prediction_task_uuid : String
  prediction_type : PredictionType
  signed_urls : List _MediaUploadUrl

/-! ## Pydantic validation (`Model.model_validate(payload)`)

Required fields must be present with the declared shape; keys not
declared on the model are ignored and not stored (pydantic's default
`extra="ignore"` behaviour — the models in models.py set no
`model_config`).  A failed validation raises `ValidationError`, which
no caller in classification.py catches. -/

/-- Validate a JSON value as a `str` field. -/
def decodeString : Json → Option String
  | .str s => some s
  | _ => none

/-- Validate a JSON value as a numeric (`float`) field. -/
def decodeRat : Json → Option Rat
  | .num q => some q
  | _ => none

/-- Validate a JSON value as an `int` field. -/
def decodeInt : Json → Option Int
  | .num q => if q.den = 1 then some q.num else none
  | _ => none

/-- Validate a JSON value as a homogeneous list field. -/
def decodeList (f : Json → Option α) : Json → Option (List α)
  | .arr es => es.mapM f
  | _ => none

/-- Validate a `Literal["image", "video"]` field. -/
def decodePredictionType : Json → Option PredictionType
  | .str s =>
      if s = "image" then some .image
      else if s = "video" then some .video
      else none
  | _ => none

/-- Validate a `dict[str, Any]` field. -/
def decodeFields : Json → Option (List (String × Json))
  | .obj kvs => some kvs
  | _ => none

/-- Modelled from the spec: validation of the `TaxonPrediction` leaf
(its field set is in the missing `types/common.py`). -/
def decodeTaxonPrediction (j : Json) : Option TaxonPrediction := do
  let taxonId ← (j.getField "taxonId").bind decodeString
  let name ← (j.getField "name").bind decodeString
  let confidence ← (j.getField "confidence").bind decodeRat
  pure ⟨taxonId, name, confidence⟩

/-- Modelled from the spec: validation of a normalized bounding box
as four coordinates (its shape is in the missing `types/common.py`). -/
def decodeNormalizedBbox : Json → Option NormalizedBbox
  | .arr [a, b, c, d] => do
      let xMin ← decodeRat a
      let yMin ← decodeRat b
      let xMax ← decodeRat c
      let yMax ← decodeRat d
      pure ⟨xMin, yMin, xMax, yMax⟩
  | _ => none

/-- Validation of `ClassificationTraitRootPrediction`. -/
def decodeTraitRoot (j : Json) : Option ClassificationTraitRootPrediction := do
  let id ← (j.getField "id").bind decodeString
  let name ← (j.getField "name").bind decodeString
  let displayName ← (j.getField "displayName").bind decodeString
  let taxons ← (j.getField "taxons").bind (decodeList decodeTaxonPrediction)
  pure ⟨id, name, displayName, taxons⟩

/-- Validation of `ClassificationObjectPrediction`. -/
def decodeObjectPrediction (j : Json) : Option ClassificationObjectPrediction := do
  let normalizedBbox ← (j.getField "normalizedBbox").bind decodeNormalizedBbox
  let category ← (j.getField "category").bind decodeTaxonPrediction
  let traits ← (j.getField "traits").bind (decodeList decodeTraitRoot)
  pure ⟨normalizedBbox, category, traits⟩

/-- Embedding of `ClassificationPredictImageResponse.model_validate(payload)`: the
single declared field `predictions` is read; every other key of the
payload is ignored. -/
def decodeImageResponse (j : Json) : Option ClassificationPredictImageResponse := do
  let predictions ← (j.getField "predictions").bind (decodeList decodeObjectPrediction)
  pure ⟨predictions⟩

/-- Validation of `ClassificationVideoObjectPrediction`. -/
def decodeVideoObjectPrediction (j : Json) : Option ClassificationVideoObjectPrediction := do
  let normalizedBbox ← (j.getField "normalizedBbox").bind decodeNormalizedBbox
  let category ← (j.getField "category").bind decodeTaxonPrediction
  let traits ← (j.getField "traits").bind (decodeList decodeTraitRoot)
  let frame_id ← (j.getField "frame_id").bind decodeString
  let frame_index ← (j.getField "frame_index").bind decodeInt
  let timestamp_microseconds ← (j.getField "timestamp_microseconds").bind decodeInt
  pure ⟨normalizedBbox, category, traits, frame_id, frame_index, timestamp_microseconds⟩

/-- Embedding of `ClassificationPredictVideoResponse.model_validate(payload)`: its
declared fields are `timestamp_to_predictions` and
`frames_per_second`; every other key is ignored. -/
def decodeVideoResponse (j : Json) : Option ClassificationPredictVideoResponse := do
  let tp ← j.getField "timestamp_to_predictions"
  let pairs ←
    match tp with
    | .obj kvs =>
        kvs.mapM (fun kv => do
          let ps ← decodeList decodeVideoObjectPrediction kv.2
          pure (kv.1, ps))
    | _ => none
  let frames_per_second ← (j.getField "frames_per_second").bind decodeInt
  pure ⟨pairs, frames_per_second⟩

/-- Embedding of `_PresignedPostRequest` validation. -/
def decodePresignedPostRequest (j : Json) : Option _PresignedPostRequest := do
  let url ← (j.getField "url").bind decodeString
  let fields ← (j.getField "fields").bind decodeFields
  pure ⟨url, fields⟩

/-- Embedding of `_MediaUploadUrl` validation. -/
def decodeMediaUploadUrl (j : Json) : Option _MediaUploadUrl := do
  let blob_path ← (j.getField "blob_path").bind decodeString
  let presigned ← (j.getField "presigned_post_request").bind decodePresignedPostRequest
  pure ⟨blob_path, presigned⟩

/-- Embedding of `_PredictionTaskBeginResponse.model_validate(payload)`. -/
def decodeBeginResponse (j : Json) : Option _PredictionTaskBeginResponse := do
  let uuid ← (j.getField "prediction_task_uuid").bind decodeString
  let ptype ← (j.getField "prediction_type").bind decodePredictionType
  let urls ← (j.getField "signed_urls").bind (decodeList decodeMediaUploadUrl)
  pure ⟨uuid, ptype, urls⟩

/-! ## Media sources (`types/media.py`, `types/image.py`) -/

/-- The variants accepted by `Media.file_or_bytes` /
`Image.file_or_bytes` (`bytes`, `BytesIO`, `BufferedReader`); each
carries the byte content it yields.  A byte is a `Nat` below 256; the
bound plays no role in any property here. -/
inductive FileOrBytes where
  | bytes (data : List Nat)
  | bytesIo (data : List Nat)
  | bufferedReader (data : List Nat)
deriving DecidableEq

/-- Embedding of `Media` (types/media.py). -/
structure Media where
  file_or_bytes : FileOrBytes
  mime_type : String
deriving DecidableEq

/-- Embedding of `Media.bytes_io` (types/media.py): normalizes each variant into a
`BytesIO` positioned at the start; the upload step additionally calls
`seek(0)` (a no-op here, since every modelled variant rewinds). -/
def Media.bytes_io (m : Media) : List Nat :=
  match m.file_or_bytes with
  | .bytes d => d
  | .bytesIo d => d
  | .bufferedReader d => d

/-- Embedding of `Image` (types/image.py): a named tuple with two optional members,
defaulting to `None`. -/
structure Image where
  file_or_bytes : Option FileOrBytes
  url : Option String
deriving DecidableEq

/-! ## HTTP requests and network events -/

/-- One part of a multipart form: a plain field or a file part. -/
inductive FormPart where
  | field (name value : String)
  | file (name filename : String) (content : List Nat)
deriving DecidableEq

/-- An HTTP request as the client assembles it: method, URL, headers
and form parts (query parameters are part of the URL string, as in
the source). -/
structure HttpRequest where
  method : String
  url : String
  headers : List (String × String)
  form : List FormPart
deriving DecidableEq

/-- One observable network-facing action of the orchestrator. -/
inductive NetEvent where
  | beginCall (req : HttpRequest)
  | uploadCall (req : HttpRequest)
  | triggerCall (req : HttpRequest)
  | statusCall (req : HttpRequest)
  | resultsCall (req : HttpRequest)
  | sleep (seconds : Rat)
deriving DecidableEq

/-- Is this event a call to the results endpoint? -/
def NetEvent.isResultsCall : NetEvent → Bool
  | .resultsCall _ => true
  | _ => false

/-- Is this event a call to the status endpoint? -/
def NetEvent.isStatusCall : NetEvent → Bool
  | .statusCall _ => true
  | _ => false

/-- Is this event a call to the upload destination? -/
def NetEvent.isUploadCall : NetEvent → Bool
  | .uploadCall _ => true
  | _ => false

/-- Number of results calls in a trace. -/
def countResultsCalls (evs : List NetEvent) : Nat :=
  (evs.filter NetEvent.isResultsCall).length

/-- Number of status calls in a trace. -/
def countStatusCalls (evs : List NetEvent) : Nat :=
  (evs.filter NetEvent.isStatusCall).length

/-- Number of upload calls in a trace. -/
def countUploadCalls (evs : List NetEvent) : Nat :=
  (evs.filter NetEvent.isUploadCall).length

/-- Modelled from the spec: the fixed base API origin
(`BASE_API_URL` lives in the missing `types/common.py`); its literal
value is immaterial to every property below. -/
def BASE_API_URL : String := "https://api.dragoneye.ai"

/-- The bearer Authorization header built from the client api key
(`\x7b"Authorization": f"Bearer \x7bapi_key\x7d"\x7d`). -/
def authHeader (api_key : String) : String × String :=
  ("Authorization", "Bearer " ++ api_key)

/-- The GET request issued by `Classification.status`. -/
def statusRequest (api_key prediction_task_uuid : String) : HttpRequest :=
  { method := "GET"
    url := BASE_API_URL ++ "/prediction-task/status?predictionTaskUuid=" ++ prediction_task_uuid
    headers := [authHeader api_key]
    form := [] }

/-- The GET request issued by `Classification.get_results`. -/
def resultsRequest (api_key prediction_task_uuid : String) : HttpRequest :=
  { method := "GET"
    url := BASE_API_URL ++ "/prediction-task/results?predictionTaskUuid=" ++ prediction_task_uuid
    headers := [authHeader api_key]
    form := [] }

/-- The POST request issued by `_begin_prediction_task`: form fields
`mimetype` and, when given, `frames_per_second`. -/
def beginRequest (api_key mime_type : String) (frames_per_second : Option Int) : HttpRequest :=
  { method := "POST"
    url := BASE_API_URL ++ "/prediction-task/begin"
    headers := [authHeader api_key]
    form :=
      FormPart.field "mimetype" mime_type ::
        (match frames_per_second with
         | some fps => [FormPart.field "frames_per_second" (toString fps)]
         | none => []) }

/-- The POST request to `/predict` issued inline by
`_predict_unified`: form fields `model_name` and
`prediction_task_uuid`. -/
def triggerRequest (api_key model_name prediction_task_uuid : String) : HttpRequest :=
  { method := "POST"
    url := BASE_API_URL ++ "/predict"
    headers := [authHeader api_key]
    form :=
      [FormPart.field "model_name" model_name,
       FormPart.field "prediction_task_uuid" prediction_task_uuid] }

/-- The multipart form built by `_upload_media_to_prediction_task`:
every presigned field (in mapping order, value passed through
`str(v)`), then the media bytes as the file part named and filed as
`"file"`. -/
def buildUploadForm (fields : List (String × Json)) (fileBytes : List Nat) : List FormPart :=
  fields.map (fun kv => FormPart.field kv.1 (pyStr kv.2)) ++
    [FormPart.file "file" "file" fileBytes]

/-- The POST request issued by `_upload_media_to_prediction_task` to
the presigned destination.  The method has the client api key in
scope (it is a bound method of `Classification`) but passes no
headers at all to the request: `_api_key` is deliberately unused. -/
def uploadRequest (_api_key : String) (signed_url : _MediaUploadUrl) (media : Media) : HttpRequest :=
  { method := "POST"
    url := signed_url.presigned_post_request.url
    headers := []
    form := buildUploadForm signed_url.presigned_post_request.fields media.bytes_io }

/-! ## Errors (`types/exception.py` and the Python built-ins that
escape untyped) -/

/-- The exceptions an operation can raise: the five typed errors of
`types/exception.py` (each carrying its message), plus the untyped
Python exceptions that escape the source uncaught: an aiohttp
`ClientError` propagating out of `status`, a pydantic
`ValidationError`, a `TypeError` from item assignment on a non-dict
payload, an `IndexError` from `signed_urls[0]`, an `AssertionError`
from a failed `assert`, and `ValueError`. -/
inductive PyErr where
  | clientError (msg : String)
  | validationError
  | typeError
  | indexError
  | assertionError
  | valueError (msg : String)
  | incorrectMediaTypeError (msg : String)
  | predictionTaskBeginError (msg : String)
  | predictionUploadError (msg : String)
  | predictionTaskError (msg : String)
  | predictionTaskResultsUnavailableError (msg : String)
deriving DecidableEq

/-- Validation of `PredictionTaskStatusResponse`
(`PredictionTaskStatusResponse.model_validate(payload)`). -/
def decodeStatusResponse (j : Json) : Option PredictionTaskStatusResponse := do
  let uuid ← (j.getField "prediction_task_uuid").bind decodeString
  let ptype ← (j.getField "prediction_type").bind decodePredictionType
  let status ← (j.getField "status").bind decodeString
  pure ⟨uuid, ptype, status⟩

/-- The remote service as an oracle: the outcome of each round trip.
`.error e` stands for an aiohttp `ClientError` — a transport failure
or the `ClientResponseError` raised by `resp.raise_for_status()` on a
non-2xx response — carrying its message.  `statusResults i` is the
outcome of the `i`-th status call, so a whole polling history can be
described. -/
structure ServerEnv where
  beginResult : Except String Json
  uploadResult : Except String Unit
  triggerResult : Except String Unit
  statusResults : Nat → Except String Json
  resultsResult : Except String Json

/-- The union type returned by `get_results` /
`_predict_unified` (`ClassificationPredictImageResponse |
ClassificationPredictVideoResponse`). -/
inductive ClassificationPredictResponse where
  | image (r : ClassificationPredictImageResponse)
  | video (r : ClassificationPredictVideoResponse)
deriving DecidableEq

/-- The value side of the `i`-th `Classification.status` call: a
`ClientError` from `raise_for_status` propagates uncaught, otherwise
the payload is validated as `PredictionTaskStatusResponse`. -/
def statusOutcome (env : ServerEnv) (i : Nat) :
    Except PyErr PredictionTaskStatusResponse :=
  match env.statusResults i with
  | .error e => .error (.clientError e)
  | .ok payload =>
      match decodeStatusResponse payload with
      | some s => .ok s
      | none => .error .validationError

/-- Embedding of `Classification.status` (classification.py): one authorized GET of
the status endpoint.  `i` is the index of this call into the oracle's
status history. -/
def Classification.status (env : ServerEnv) (api_key prediction_task_uuid : String)
    (i : Nat) : Except PyErr PredictionTaskStatusResponse × List NetEvent :=
  (statusOutcome env i, [.statusCall (statusRequest api_key prediction_task_uuid)])

/-- The value side of `Classification.get_results`
(classification.py), one authorized GET of the results
endpoint.  A `ClientError` is caught and re-raised
as `PredictionTaskResultsUnavailableError`; on success the task uuid
is written into the payload dict (`payload["prediction_task_uuid"] =
prediction_task_uuid` — a `TypeError` on a non-dict payload) and the
result is validated against the model selected by `prediction_type`.
The Python `case _` arm raising `ValueError` is unreachable for the
closed `Literal["image", "video"]` type and has no counterpart
here. -/
def resultsOutcome (env : ServerEnv) (prediction_task_uuid : String)
    (prediction_type : PredictionType) : Except PyErr ClassificationPredictResponse :=
  match env.resultsResult with
  | .error e =>
      .error (.predictionTaskResultsUnavailableError
        ("Error getting prediction task results: " ++ e))
  | .ok payload =>
      match payload with
      | .obj kvs =>
          let injected := Json.obj (setKV kvs "prediction_task_uuid" (.str prediction_task_uuid))
          match prediction_type with
          | .image =>
              match decodeImageResponse injected with
              | some r => .ok (.image r)
              | none => .error .validationError
          | .video =>
              match decodeVideoResponse injected with
              | some r => .ok (.video r)
              | none => .error .validationError
      | _ => .error .typeError

/-- Embedding of `Classification.get_results` as one authorized round trip paired
with its outcome. -/
def Classification.get_results (env : ServerEnv) (api_key prediction_task_uuid : String)
    (prediction_type : PredictionType) :
    Except PyErr ClassificationPredictResponse × List NetEvent :=
  (resultsOutcome env prediction_task_uuid prediction_type,
   [.resultsCall (resultsRequest api_key prediction_task_uuid)])

/-- Embedding of `Classification._wait_for_prediction_task_completion`
(classification.py): `while True: status(); if complete: return;
sleep(polling_interval)`.  The loop is given explicit fuel (a bound
on the number of status calls): `none` means it has not returned
within that bound — the source loop itself has no timeout.  `i`
indexes the next status call into the oracle's history; the source
default for `polling_interval` is `1.0`. -/
def _wait_for_prediction_task_completion (env : ServerEnv)
    (api_key prediction_task_uuid : String) (polling_interval : Rat) :
    Nat → Nat → Option (Except PyErr PredictionTaskStatusResponse × List NetEvent)
  | _, 0 => none
  | i, fuel + 1 =>
      match Classification.status env api_key prediction_task_uuid i with
      | (.error e, evs) => some (.error e, evs)
      | (.ok s, evs) =>
          if _is_task_complete s.status then some (.ok s, evs)
          else
            match _wait_for_prediction_task_completion env api_key prediction_task_uuid
                polling_interval (i + 1) fuel with
            | none => none
            | some (r, evs2) => some (r, evs ++ NetEvent.sleep polling_interval :: evs2)

/-- The value side of `_upload_media_to_prediction_task`
(classification.py), one unauthorized POST of the multipart form to
the presigned destination; a `ClientError` is re-raised as
`PredictionUploadError`. -/
def uploadOutcome (env : ServerEnv) : Except PyErr Unit :=
  match env.uploadResult with
  | .error e =>
      .error (.predictionUploadError ("Error uploading media to prediction task:" ++ e))
  | .ok _ => .ok ()

/-- Embedding of `_upload_media_to_prediction_task` as one round trip paired with
its outcome. -/
def Classification._upload_media_to_prediction_task (env : ServerEnv) (api_key : String)
    (media : Media) (signed_url : _MediaUploadUrl) : Except PyErr Unit × List NetEvent :=
  (uploadOutcome env, [.uploadCall (uploadRequest api_key signed_url media)])

/-- The value side of `_begin_prediction_task` (classification.py),
one authorized POST of the begin form; a `ClientError` is re-raised
as `PredictionTaskBeginError`, the payload is validated as
`_PredictionTaskBeginResponse`. -/
def beginOutcome (env : ServerEnv) : Except PyErr _PredictionTaskBeginResponse :=
  match env.beginResult with
  | .error e => .error (.predictionTaskBeginError ("Error beginning prediction task:" ++ e))
  | .ok payload =>
      match decodeBeginResponse payload with
      | some resp => .ok resp
      | none => .error .validationError

/-- Embedding of `_begin_prediction_task` as one authorized round trip paired with
its outcome. -/
def Classification._begin_prediction_task (env : ServerEnv) (api_key mime_type : String)
    (frames_per_second : Option Int) :
    Except PyErr _PredictionTaskBeginResponse × List NetEvent :=
  (beginOutcome env, [.beginCall (beginRequest api_key mime_type frames_per_second)])

/-- Embedding of `Classification._predict_unified` (classification.py): begin →
prediction-type consistency check → `signed_urls[0]` → upload →
trigger (`POST /predict`, inline) → poll until terminal → raise on a
failed status, otherwise fetch and decode results with the uuid taken
from the final status response. -/
def Classification._predict_unified (env : ServerEnv) (api_key : String) (media : Media)
    (model_name : String) (prediction_type : PredictionType)
    (frames_per_second : Option Int) (fuel : Nat) :
    Option (Except PyErr ClassificationPredictResponse × List NetEvent) :=
  match Classification._begin_prediction_task env api_key media.mime_type frames_per_second with
  | (.error e, evs0) => some (.error e, evs0)
  | (.ok resp, evs0) =>
    if resp.prediction_type ≠ prediction_type then
      some (.error (.predictionTaskBeginError
        ("Prediction type mismatch: " ++ resp.prediction_type.toStr ++ " != " ++
          prediction_type.toStr)), evs0)
    else
      match resp.signed_urls with
      | [] => some (.error .indexError, evs0)
      | signed_url :: _ =>
        match Classification._upload_media_to_prediction_task env api_key media signed_url with
        | (.error e, evs1) => some (.error e, evs0 ++ evs1)
        | (.ok _, evs1) =>
          let treq := triggerRequest api_key model_name resp.prediction_task_uuid
          match env.triggerResult with
          | .error e =>
              some (.error (.predictionTaskError ("Error initiating prediction:" ++ e)),
                evs0 ++ evs1 ++ [.triggerCall treq])
          | .ok _ =>
            match _wait_for_prediction_task_completion env api_key
                resp.prediction_task_uuid 1 0 fuel with
            | none => none
            | some (.error e, evs2) =>
                some (.error e, evs0 ++ evs1 ++ [.triggerCall treq] ++ evs2)
            | some (.ok st, evs2) =>
              if _is_task_failed st.status then
                some (.error (.predictionTaskError ("Prediction task failed: " ++ st.status)),
                  evs0 ++ evs1 ++ [.triggerCall treq] ++ evs2)
              else
                match Classification.get_results env api_key st.prediction_task_uuid
                    prediction_type with
                | (r, evs3) =>
                    some (r, evs0 ++ evs1 ++ [.triggerCall treq] ++ evs2 ++ evs3)

/-- Embedding of `Classification.predict_image` (classification.py): dispatch on
`media.mime_type.split("/")[0]`; only main type `image` reaches
`_predict_unified` (with prediction type `image` and no frame rate),
the other branches raise `IncorrectMediaTypeError` with no network
activity. -/
def Classification.predict_image (env : ServerEnv) (api_key : String) (media : Media)
    (model_name : String) (fuel : Nat) :
    Option (Except PyErr ClassificationPredictResponse × List NetEvent) :=
  match mimeMainType media.mime_type with
  | "image" => Classification._predict_unified env api_key media model_name .image none fuel
  | "video" =>
      some (.error (.incorrectMediaTypeError
        "Incorrect media type for predict_image, use predict_video instead"), [])
  | _ =>
      some (.error (.incorrectMediaTypeError
        ("Unsupported media type for predict_image: " ++ media.mime_type)), [])

/-- Embedding of `Classification.predict_video` (classification.py): dispatch on
the mime main type; only `video` reaches `_predict_unified` (with
prediction type `video` and the given frame rate). -/
def Classification.predict_video (env : ServerEnv) (api_key : String) (media : Media)
    (model_name : String) (frames_per_second : Int) (fuel : Nat) :
    Option (Except PyErr ClassificationPredictResponse × List NetEvent) :=
  match mimeMainType media.mime_type with
  | "video" =>
      Classification._predict_unified env api_key media model_name .video
        (some frames_per_second) fuel
  | "image" =>
      some (.error (.incorrectMediaTypeError
        "Incorrect media type for predict_video, use predict_image instead"), [])
  | _ =>
      some (.error (.incorrectMediaTypeError
        ("Unsupported media type for predict_video: " ++ media.mime_type)), [])

/-- Embedding of `assert_consistent_data_type` (types/image.py): `assert
all(bytes present) ^ all(url present)`; the paired trace is the
network activity of the check — always empty, the function touches no
transport. -/
def assert_consistent_data_type (images : List Image) : Except PyErr Unit × List NetEvent :=
  if Bool.xor (images.all fun i => i.file_or_bytes.isSome)
      (images.all fun i => i.url.isSome)
  then (.ok (), [])
  else (.error .assertionError, [])

/-! ## General lemmas about the operations -/

/-- The `get_results` operation performs exactly one results round
trip, whatever its outcome. -/
lemma get_results_trace (env : ServerEnv) (api_key uuid : String) (t : PredictionType) :
    (Classification.get_results env api_key uuid t).2
      = [.resultsCall (resultsRequest api_key uuid)] :=
  rfl

/-- The polling loop performs no results call. -/
lemma wait_no_results_calls (env : ServerEnv) (api_key uuid : String)
    (interval : Rat) :
    ∀ fuel i r wevs,
      _wait_for_prediction_task_completion env api_key uuid interval i fuel
          = some (r, wevs) →
      countResultsCalls wevs = 0 := by
  intro fuel
  induction fuel with
  | zero => intro i r wevs h; simp [_wait_for_prediction_task_completion] at h
  | succ n ih =>
      intro i r wevs h
      unfold _wait_for_prediction_task_completion Classification.status at h
      rcases hs : statusOutcome env i with e | s <;> rw [hs] at h <;> dsimp only at h
      · simp at h
        rw [← h.2]; rfl
      · by_cases hc : _is_task_complete s.status = true
        · rw [if_pos hc] at h
          simp at h
          rw [← h.2]; rfl
        · rw [if_neg hc] at h
          rcases hrec : _wait_for_prediction_task_completion env api_key uuid interval
              (i + 1) n with _ | ⟨r2, wevs2⟩ <;> rw [hrec] at h
          · simp at h
          · simp at h
            rw [← h.2]
            have h0 := ih (i + 1) r2 wevs2 hrec
            simp [countResultsCalls, NetEvent.isResultsCall] at h0 ⊢
            exact h0

/-- Unfolding of `_predict_unified` once begin, upload and trigger
succeeded, the begin response matches the requested prediction type,
and polling returned a decoded terminal status: the outcome is the
task-failure error or the results fetch, after the begin, upload and
trigger calls and the polling trace. -/
lemma predict_unified_after_wait (env : ServerEnv) (api_key : String) (media : Media)
    (model_name : String) (prediction_type : PredictionType)
    (frames_per_second : Option Int) (fuel : Nat)
    (payload : Json) (resp : _PredictionTaskBeginResponse)
    (u : _MediaUploadUrl) (rest : List _MediaUploadUrl)
    (st : PredictionTaskStatusResponse) (wevs : List NetEvent)
    (hb : env.beginResult = .ok payload)
    (hd : decodeBeginResponse payload = some resp)
    (hty : resp.prediction_type = prediction_type)
    (hurls : resp.signed_urls = u :: rest)
    (hup : env.uploadResult = .ok ())
    (htr : env.triggerResult = .ok ())
    (hw : _wait_for_prediction_task_completion env api_key resp.prediction_task_uuid 1 0 fuel
            = some (.ok st, wevs)) :
    Classification._predict_unified env api_key media model_name prediction_type
        frames_per_second fuel
      = if _is_task_failed st.status then
          some (.error (.predictionTaskError ("Prediction task failed: " ++ st.status)),
            .beginCall (beginRequest api_key media.mime_type frames_per_second) ::
              .uploadCall (uploadRequest api_key u media) ::
              .triggerCall (triggerRequest api_key model_name resp.prediction_task_uuid) ::
              wevs)
        else
          some (resultsOutcome env st.prediction_task_uuid prediction_type,
            .beginCall (beginRequest api_key media.mime_type frames_per_second) ::
              .uploadCall (uploadRequest api_key u media) ::
              .triggerCall (triggerRequest api_key model_name resp.prediction_task_uuid) ::
              (wevs ++ [.resultsCall (resultsRequest api_key st.prediction_task_uuid)])) := by
  unfold Classification._predict_unified Classification._begin_prediction_task
    Classification._upload_media_to_prediction_task Classification.get_results
    beginOutcome uploadOutcome
  rw [hb]
  dsimp only
  rw [hd]
  dsimp only
  rw [hty, hurls, hup, htr]
  dsimp only
  simp only [ne_eq, not_true_eq_false, if_false, Bool.false_eq_true, ite_false]
  rw [hw]
  dsimp only
  by_cases hc : _is_task_failed st.status = true <;> simp [hc]

/-! ## Concrete fixtures (the end-to-end scenario of the spec) -/

/-- The begin payload of the end-to-end scenario: task `T1`, image
prediction, one signed url. -/
def beginPayloadT1 : Json :=
  .obj [("prediction_task_uuid", .str "T1"),
        ("prediction_type", .str "image"),
        ("signed_urls", .arr [.obj [("blob_path", .str "b"),
          ("presigned_post_request", .obj [("url", .str "https://up"),
            ("fields", .obj [("key", .str "v")])])]])]

/-- The upload target inside `beginPayloadT1`. -/
def uT1 : _MediaUploadUrl := ⟨"b", ⟨"https://up", [("key", Json.str "v")]⟩⟩

/-- The begin response `beginPayloadT1` validates to. -/
def beginRespT1 : _PredictionTaskBeginResponse := ⟨"T1", .image, [uT1]⟩

/-- A status payload for task `T1` with the given status string. -/
def statusPayloadT1 (s : String) : Json :=
  .obj [("prediction_task_uuid", .str "T1"),
        ("prediction_type", .str "image"),
        ("status", .str s)]

/-- A png image media item. -/
def mediaPng : Media := ⟨.bytes [1, 2], "image/png"⟩

/-- The scenario environment: begin yields `beginPayloadT1`, upload
and trigger succeed, the `i`-th status call reports `statuses i`, and
results yields an empty prediction list. -/
def envWith (statuses : Nat → String) : ServerEnv :=
  { beginResult := .ok beginPayloadT1
    uploadResult := .ok ()
    triggerResult := .ok ()
    statusResults := fun i => .ok (statusPayloadT1 (statuses i))
    resultsResult := .ok (.obj [("predictions", .arr [])]) }

/-! ## C1 -/

/-- Environment whose results payload is the scenario document
`\x7b"predictions": []\x7d` — it omits `prediction_task_uuid`. -/
def envC1 : ServerEnv := envWith (fun _ => "predicted")

/-- Claim C1 (code_bug evidence): `get_results` writes the task uuid
into the payload dict, but `ClassificationPredictImageResponse`
declares no `prediction_task_uuid` field, so validation drops the
injected key: on the results payload `\x7b"predictions": []\x7d` for task
`T1` the returned typed value is exactly `⟨[]⟩`, a value carrying no
task id at all — it is even identical to the value returned for task
`T2`.  The returned typed result therefore does not expose the
originating task uuid. -/
theorem C1_typed_result_drops_task_uuid :
    (Classification.get_results envC1 "key" "T1" .image).1
        = .ok (.image ⟨[]⟩) ∧
    (Classification.get_results envC1 "key" "T1" .image).1
        = (Classification.get_results envC1 "key" "T2" .image).1 :=
  ⟨rfl, rfl⟩

/-! ## C2 -/

/-- Claim C2: for every status whose name begins with the literal
string `failed`, when polling returns that status the composite
predict call raises `PredictionTaskError` carrying the final status
string, and the results operation is never invoked (the trace holds
zero results calls). -/
theorem C2_failed_status_raises_without_results (env : ServerEnv) (api_key : String)
    (media : Media) (model_name : String) (prediction_type : PredictionType)
    (frames_per_second : Option Int) (fuel : Nat) (payload : Json)
    (resp : _PredictionTaskBeginResponse) (u : _MediaUploadUrl)
    (rest : List _MediaUploadUrl) (st : PredictionTaskStatusResponse)
    (wevs : List NetEvent)
    (hb : env.beginResult = .ok payload)
    (hd : decodeBeginResponse payload = some resp)
    (hty : resp.prediction_type = prediction_type)
    (hurls : resp.signed_urls = u :: rest)
    (hup : env.uploadResult = .ok ())
    (htr : env.triggerResult = .ok ())
    (hw : _wait_for_prediction_task_completion env api_key resp.prediction_task_uuid 1 0 fuel
            = some (.ok st, wevs))
    (hf : _is_task_failed st.status = true) :
    Classification._predict_unified env api_key media model_name prediction_type
        frames_per_second fuel
      = some (.error (.predictionTaskError ("Prediction task failed: " ++ st.status)),
          .beginCall (beginRequest api_key media.mime_type frames_per_second) ::
            .uploadCall (uploadRequest api_key u media) ::
            .triggerCall (triggerRequest api_key model_name resp.prediction_task_uuid) ::
            wevs) ∧
    countResultsCalls
        (.beginCall (beginRequest api_key media.mime_type frames_per_second) ::
          .uploadCall (uploadRequest api_key u media) ::
          .triggerCall (triggerRequest api_key model_name resp.prediction_task_uuid) ::
          wevs) = 0 := by
  constructor
  · rw [predict_unified_after_wait env api_key media model_name prediction_type
      frames_per_second fuel payload resp u rest st wevs hb hd hty hurls hup htr hw,
      if_pos hf]
  · have h0 := wait_no_results_calls env api_key resp.prediction_task_uuid 1 fuel 0 _ _ hw
    simpa [countResultsCalls, NetEvent.isResultsCall, List.filter] using h0

/-- Environment that reports `failed_unsupported` at once. -/
def envC2 : ServerEnv := envWith (fun _ => "failed_unsupported")

/-- Witness for C2 at a concrete run: the first poll reports
`failed_unsupported`, predict raises carrying that status, and the
trace holds zero results calls. -/
theorem C2_witness :
    Classification._predict_unified envC2 "k" mediaPng "m" .image none 1
      = some (.error (.predictionTaskError "Prediction task failed: failed_unsupported"),
          [.beginCall (beginRequest "k" "image/png" none),
           .uploadCall (uploadRequest "k" uT1 mediaPng),
           .triggerCall (triggerRequest "k" "m" "T1"),
           .statusCall (statusRequest "k" "T1")]) ∧
    countResultsCalls
        [.beginCall (beginRequest "k" "image/png" none),
         .uploadCall (uploadRequest "k" uT1 mediaPng),
         .triggerCall (triggerRequest "k" "m" "T1"),
         .statusCall (statusRequest "k" "T1")] = 0 :=
  C2_failed_status_raises_without_results envC2 "k" mediaPng "m" .image none 1
    beginPayloadT1 beginRespT1 uT1 [] ⟨"T1", .image, "failed_unsupported"⟩
    [.statusCall (statusRequest "k" "T1")]
    rfl rfl rfl rfl rfl rfl rfl (by decide)

/-! ## C3 -/

/-- Claim C3: when polling first returns the literal status `predicted`
(and success is exactly that literal), predict performs the results
operation exactly once and returns the successfully decoded typed
value. -/
theorem C3_predicted_fetches_results_once (env : ServerEnv) (api_key : String)
    (media : Media) (model_name : String) (prediction_type : PredictionType)
    (frames_per_second : Option Int) (fuel : Nat) (payload : Json)
    (resp : _PredictionTaskBeginResponse) (u : _MediaUploadUrl)
    (rest : List _MediaUploadUrl) (st : PredictionTaskStatusResponse)
    (wevs : List NetEvent) (r : ClassificationPredictResponse)
    (hb : env.beginResult = .ok payload)
    (hd : decodeBeginResponse payload = some resp)
    (hty : resp.prediction_type = prediction_type)
    (hurls : resp.signed_urls = u :: rest)
    (hup : env.uploadResult = .ok ())
    (htr : env.triggerResult = .ok ())
    (hw : _wait_for_prediction_task_completion env api_key resp.prediction_task_uuid 1 0 fuel
            = some (.ok st, wevs))
    (hs : st.status = "predicted")
    (hres : resultsOutcome env st.prediction_task_uuid prediction_type = .ok r) :
    Classification._predict_unified env api_key media model_name prediction_type
        frames_per_second fuel
      = some (.ok r,
          .beginCall (beginRequest api_key media.mime_type frames_per_second) ::
            .uploadCall (uploadRequest api_key u media) ::
            .triggerCall (triggerRequest api_key model_name resp.prediction_task_uuid) ::
            (wevs ++ [.resultsCall (resultsRequest api_key st.prediction_task_uuid)])) ∧
    countResultsCalls
        (.beginCall (beginRequest api_key media.mime_type frames_per_second) ::
          .uploadCall (uploadRequest api_key u media) ::
          .triggerCall (triggerRequest api_key model_name resp.prediction_task_uuid) ::
          (wevs ++ [.resultsCall (resultsRequest api_key st.prediction_task_uuid)])) = 1 ∧
    (∀ status : String, _is_task_successful status = true ↔ status = "predicted") := by
  have hf : _is_task_failed st.status = false := by rw [hs]; decide
  refine ⟨?_, ?_, ?_⟩
  · rw [predict_unified_after_wait env api_key media model_name prediction_type
      frames_per_second fuel payload resp u rest st wevs hb hd hty hurls hup htr hw,
      if_neg (by simp [hf]), hres]
  · have h0 := wait_no_results_calls env api_key resp.prediction_task_uuid 1 fuel 0 _ _ hw
    simp [countResultsCalls, NetEvent.isResultsCall, List.filter_append, List.filter]
      at h0 ⊢
    exact h0
  · intro status
    simp [_is_task_successful]

/-- Environment that reports `processing`, then `predicted`. -/
def envC3 : ServerEnv := envWith (fun i => if i = 0 then "processing" else "predicted")

/-- Witness for C3 at a concrete run: one `processing` poll, then
`predicted`; results is fetched once and decodes to the empty image
prediction set. -/
theorem C3_witness :
    Classification._predict_unified envC3 "k" mediaPng "m" .image none 2
      = some (.ok (.image ⟨[]⟩),
          .beginCall (beginRequest "k" "image/png" none) ::
            .uploadCall (uploadRequest "k" uT1 mediaPng) ::
            .triggerCall (triggerRequest "k" "m" "T1") ::
            ([.statusCall (statusRequest "k" "T1"), .sleep 1,
              .statusCall (statusRequest "k" "T1")] ++
              [.resultsCall (resultsRequest "k" "T1")])) ∧
    countResultsCalls
        (.beginCall (beginRequest "k" "image/png" none) ::
          .uploadCall (uploadRequest "k" uT1 mediaPng) ::
          .triggerCall (triggerRequest "k" "m" "T1") ::
          ([.statusCall (statusRequest "k" "T1"), .sleep 1,
            .statusCall (statusRequest "k" "T1")] ++
            [.resultsCall (resultsRequest "k" "T1")])) = 1 ∧
    (∀ status : String, _is_task_successful status = true ↔ status = "predicted") :=
  C3_predicted_fetches_results_once envC3 "k" mediaPng "m" .image none 2
    beginPayloadT1 beginRespT1 uT1 [] ⟨"T1", .image, "predicted"⟩
    [.statusCall (statusRequest "k" "T1"), .sleep 1, .statusCall (statusRequest "k" "T1")]
    (.image ⟨[]⟩) rfl rfl rfl rfl rfl rfl rfl rfl rfl

/-! ## C9 -/

/-- Claim C9: when the results round trip fails (transport error or
non-2xx) `get_results` raises
`PredictionTaskResultsUnavailableError`, an error kind distinct from
the `PredictionTaskError` raised for failed statuses. -/
theorem C9_results_unavailable_is_distinct_kind (env : ServerEnv)
    (api_key uuid : String) (t : PredictionType) (e : String)
    (h : env.resultsResult = .error e) :
    (Classification.get_results env api_key uuid t).1
        = .error (.predictionTaskResultsUnavailableError
            ("Error getting prediction task results: " ++ e)) ∧
    (∀ m₁ m₂ : String,
      PyErr.predictionTaskResultsUnavailableError m₁ ≠ PyErr.predictionTaskError m₂) := by
  constructor
  · show resultsOutcome env uuid t = _
    unfold resultsOutcome
    rw [h]
  · intro m₁ m₂
    simp

/-- Environment whose results round trip fails. -/
def envC9 : ServerEnv :=
  { envWith (fun _ => "predicted") with resultsResult := .error "boom" }

/-- Witness for C9 at a concrete failing results round trip. -/
theorem C9_witness :
    (Classification.get_results envC9 "k" "T1" .image).1
        = .error (.predictionTaskResultsUnavailableError
            "Error getting prediction task results: boom") ∧
    PyErr.predictionTaskResultsUnavailableError "x" ≠ PyErr.predictionTaskError "x" :=
  ⟨(C9_results_unavailable_is_distinct_kind envC9 "k" "T1" .image "boom" rfl).1,
   (C9_results_unavailable_is_distinct_kind envC9 "k" "T1" .image "boom" rfl).2 "x" "x"⟩

/-! ## C4 -/

/-- Is this event a sleep? -/
def NetEvent.isSleep : NetEvent → Bool
  | .sleep _ => true
  | _ => false

/-- Number of sleeps in a trace. -/
def countSleeps (evs : List NetEvent) : Nat :=
  (evs.filter NetEvent.isSleep).length

/-- The trace of a polling run with `N` in-progress answers before
the terminal one: `N + 1` status calls with a sleep of the polling
interval between consecutive calls, and nothing after the last
call. -/
def pollTrace (req : HttpRequest) (interval : Rat) : Nat → List NetEvent
  | 0 => [.statusCall req]
  | n + 1 => .statusCall req :: .sleep interval :: pollTrace req interval n

/-- The polling loop on a status stream whose first `N` answers are
in-progress and whose `N`-th is terminal: it returns that terminal
response with the `pollTrace` trace, for any fuel covering the
`N + 1` calls. -/
lemma wait_pollTrace (env : ServerEnv) (api_key uuid : String) (interval : Rat)
    (s : Nat → PredictionTaskStatusResponse)
    (hstat : ∀ j, statusOutcome env j = .ok (s j)) :
    ∀ N i fuel, (∀ j, j < N → _is_task_complete (s (i + j)).status = false) →
      _is_task_complete (s (i + N)).status = true →
      N + 1 ≤ fuel →
      _wait_for_prediction_task_completion env api_key uuid interval i fuel
        = some (.ok (s (i + N)), pollTrace (statusRequest api_key uuid) interval N) := by
  intro N
  induction N with
  | zero =>
      intro i fuel hnon hterm hfuel
      obtain ⟨f, rfl⟩ : ∃ f, fuel = f + 1 := ⟨fuel - 1, by omega⟩
      unfold _wait_for_prediction_task_completion Classification.status
      rw [hstat i]
      dsimp only
      have hterm0 : _is_task_complete (s i).status = true := by simpa using hterm
      rw [if_pos hterm0]
      simp [pollTrace]
  | succ n ih =>
      intro i fuel hnon hterm hfuel
      obtain ⟨f, rfl⟩ : ∃ f, fuel = f + 1 := ⟨fuel - 1, by omega⟩
      unfold _wait_for_prediction_task_completion Classification.status
      rw [hstat i]
      dsimp only
      have h0 : _is_task_complete (s (i + 0)).status = false := hnon 0 (Nat.succ_pos n)
      rw [if_neg (by simpa using h0)]
      have hrec := ih (i + 1) f
        (fun j hj => by
          have := hnon (j + 1) (by omega)
          simpa [Nat.add_assoc, Nat.add_comm 1 j] using this)
        (by
          have : i + (n + 1) = i + 1 + n := by omega
          rw [this] at hterm
          exact hterm)
        (by omega)
      rw [hrec]
      dsimp only
      rw [show i + 1 + n = i + (n + 1) from by omega]
      rfl

/-- The polling loop never returns on a status stream that never
reports a complete status. -/
lemma wait_never_returns (env : ServerEnv) (api_key uuid : String) (interval : Rat)
    (s : Nat → PredictionTaskStatusResponse)
    (hstat : ∀ j, statusOutcome env j = .ok (s j))
    (hnon : ∀ j, _is_task_complete (s j).status = false) :
    ∀ fuel i,
      _wait_for_prediction_task_completion env api_key uuid interval i fuel = none := by
  intro fuel
  induction fuel with
  | zero => intro i; rfl
  | succ n ih =>
      intro i
      unfold _wait_for_prediction_task_completion Classification.status
      rw [hstat i]
      dsimp only
      rw [if_neg (by simp [hnon i])]
      rw [ih (i + 1)]

/-- The `pollTrace` trace holds `N + 1` status calls and `N` sleeps. -/
lemma pollTrace_counts (req : HttpRequest) (interval : Rat) :
    ∀ N, countStatusCalls (pollTrace req interval N) = N + 1 ∧
      countSleeps (pollTrace req interval N) = N := by
  intro N
  induction N with
  | zero => exact ⟨rfl, rfl⟩
  | succ n ih =>
      constructor
      · simpa [pollTrace, countStatusCalls, List.filter, NetEvent.isStatusCall,
          NetEvent.isSleep] using ih.1
      · simpa [pollTrace, countSleeps, List.filter, NetEvent.isStatusCall,
          NetEvent.isSleep] using ih.2

/-- Claim C4: on a status sequence of `N` in-progress answers followed
by a terminal one, the polling loop calls status exactly `N + 1`
times with a sleep of the polling interval between consecutive calls
and returns the terminal status response; on a sequence with no
terminal answer it never returns (for every fuel bound the loop is
still running). -/
theorem C4_polling_call_count_and_divergence :
    (∀ (env : ServerEnv) (api_key uuid : String) (interval : Rat)
        (s : Nat → PredictionTaskStatusResponse) (N fuel : Nat),
      (∀ j, statusOutcome env j = .ok (s j)) →
      (∀ j, j < N → _is_task_complete (s j).status = false) →
      _is_task_complete (s N).status = true →
      N + 1 ≤ fuel →
      _wait_for_prediction_task_completion env api_key uuid interval 0 fuel
          = some (.ok (s N), pollTrace (statusRequest api_key uuid) interval N) ∧
        countStatusCalls (pollTrace (statusRequest api_key uuid) interval N) = N + 1 ∧
        countSleeps (pollTrace (statusRequest api_key uuid) interval N) = N) ∧
    (∀ (env : ServerEnv) (api_key uuid : String) (interval : Rat)
        (s : Nat → PredictionTaskStatusResponse),
      (∀ j, statusOutcome env j = .ok (s j)) →
      (∀ j, _is_task_complete (s j).status = false) →
      ∀ i fuel,
        _wait_for_prediction_task_completion env api_key uuid interval i fuel = none) := by
  constructor
  · intro env api_key uuid interval s N fuel hstat hnon hterm hfuel
    refine ⟨?_, pollTrace_counts (statusRequest api_key uuid) interval N⟩
    have := wait_pollTrace env api_key uuid interval s hstat N 0 fuel
      (fun j hj => by simpa using hnon j hj) (by simpa using hterm) hfuel
    simpa using this
  · intro env api_key uuid interval s hstat hnon i fuel
    exact wait_never_returns env api_key uuid interval s hstat hnon fuel i

/-- The decoded status stream of `envC4term`. -/
def statusStreamC4 (i : Nat) : PredictionTaskStatusResponse :=
  ⟨"T1", .image, if i = 0 then "pending" else if i = 1 then "processing" else "predicted"⟩

/-- Environment reporting `pending`, `processing`, then `predicted`. -/
def envC4term : ServerEnv :=
  envWith (fun i => if i = 0 then "pending" else if i = 1 then "processing" else "predicted")

/-- Environment forever reporting `processing`. -/
def envC4loop : ServerEnv := envWith (fun _ => "processing")

/-- The constant `processing` decoded status stream. -/
def statusStreamLoop (_ : Nat) : PredictionTaskStatusResponse :=
  ⟨"T1", .image, "processing"⟩

/-- Witness for C4: a concrete two-in-progress run (three status
calls, two sleeps) and a concrete never-terminal environment on which
the loop is still running at fuel 7. -/
theorem C4_witness :
    (_wait_for_prediction_task_completion envC4term "k" "T1" 1 0 5
        = some (.ok (statusStreamC4 2), pollTrace (statusRequest "k" "T1") 1 2) ∧
      countStatusCalls (pollTrace (statusRequest "k" "T1") 1 2) = 3 ∧
      countSleeps (pollTrace (statusRequest "k" "T1") 1 2) = 2) ∧
    _wait_for_prediction_task_completion envC4loop "k" "T1" 1 0 7 = none :=
  ⟨C4_polling_call_count_and_divergence.1 envC4term "k" "T1" 1 statusStreamC4 2 5
      (fun j =>
        match j with
        | 0 => rfl
        | 1 => rfl
        | _ + 2 => rfl)
      (by decide) (by decide) (by decide),
   C4_polling_call_count_and_divergence.2 envC4loop "k" "T1" 1 statusStreamLoop
      (fun _ => rfl) (fun _ => rfl) 0 7⟩

/-! ## C5 -/

/-- Is this part a plain form field (not the file part)? -/
def FormPart.isField : FormPart → Bool
  | .field _ _ => true
  | .file _ _ _ => false

/-- The plain-field portion of the upload form is exactly the
presigned mapping, in order, each value through `str`. -/
lemma buildUploadForm_filter (fields : List (String × Json)) (bytes : List Nat) :
    (buildUploadForm fields bytes).filter FormPart.isField
      = fields.map (fun kv => FormPart.field kv.1 (pyStr kv.2)) := by
  induction fields with
  | nil => rfl
  | cons kv rest ih =>
      simp only [buildUploadForm, List.map_cons, List.cons_append, List.filter_cons] at ih ⊢
      simp only [FormPart.isField, if_true, reduceIte]
      exact congrArg _ ih

/-- Claim C5: the upload step embeds every presigned field verbatim
(same name, same value — in field order, with no field dropped and
none added) into the multipart form, together with the media byte
stream as the file part. -/
theorem C5_upload_form_embeds_fields_verbatim (api_key : String)
    (signed_url : _MediaUploadUrl) (media : Media) :
    ((uploadRequest api_key signed_url media).form
        = buildUploadForm signed_url.presigned_post_request.fields media.bytes_io) ∧
    (∀ kv ∈ signed_url.presigned_post_request.fields,
      FormPart.field kv.1 (pyStr kv.2) ∈ (uploadRequest api_key signed_url media).form) ∧
    (∀ k s, (k, Json.str s) ∈ signed_url.presigned_post_request.fields →
      FormPart.field k s ∈ (uploadRequest api_key signed_url media).form) ∧
    ((uploadRequest api_key signed_url media).form.filter FormPart.isField
      = signed_url.presigned_post_request.fields.map
          (fun kv => FormPart.field kv.1 (pyStr kv.2))) ∧
    FormPart.file "file" "file" media.bytes_io ∈ (uploadRequest api_key signed_url media).form := by
  refine ⟨rfl, ?_, ?_, ?_, ?_⟩
  · intro kv hkv
    exact List.mem_append_left _ (List.mem_map_of_mem _ hkv)
  · intro k s hks
    exact List.mem_append_left _ (List.mem_map_of_mem
      (fun kv => FormPart.field kv.1 (pyStr kv.2)) hks)
  · exact buildUploadForm_filter signed_url.presigned_post_request.fields media.bytes_io
  · exact List.mem_append_right _ (List.mem_singleton.mpr rfl)

/-- Witness for C5 at the scenario upload target: the presigned field
`key ↦ v` appears verbatim in the form, next to the file part. -/
theorem C5_witness :
    FormPart.field "key" "v" ∈ (uploadRequest "k" uT1 mediaPng).form ∧
    FormPart.file "file" "file" mediaPng.bytes_io ∈ (uploadRequest "k" uT1 mediaPng).form :=
  ⟨(C5_upload_form_embeds_fields_verbatim "k" uT1 mediaPng).2.2.1 "key" "v"
      (by simp [uT1]),
   (C5_upload_form_embeds_fields_verbatim "k" uT1 mediaPng).2.2.2.2⟩

/-! ## C6 -/

/-- Claim C6: the upload request carries no Authorization header and
does not depend on the api key at all (for any two keys it is
identical), while begin, trigger, status and results each attach the
bearer Authorization header built from the key. -/
theorem C6_upload_carries_no_auth_header :
    (∀ (k₁ k₂ : String) (signed_url : _MediaUploadUrl) (media : Media),
      uploadRequest k₁ signed_url media = uploadRequest k₂ signed_url media) ∧
    (∀ (k : String) (signed_url : _MediaUploadUrl) (media : Media),
      "Authorization" ∉ (uploadRequest k signed_url media).headers.map Prod.fst) ∧
    (∀ (k mime : String) (fps : Option Int), authHeader k ∈ (beginRequest k mime fps).headers) ∧
    (∀ k model uuid : String, authHeader k ∈ (triggerRequest k model uuid).headers) ∧
    (∀ k uuid : String, authHeader k ∈ (statusRequest k uuid).headers) ∧
    (∀ k uuid : String, authHeader k ∈ (resultsRequest k uuid).headers) := by
  refine ⟨fun k₁ k₂ su m => rfl, ?_, ?_, ?_, ?_, ?_⟩
  · intro k su m
    simp [uploadRequest]
  · intro k mime fps
    simp [beginRequest]
  · intro k model uuid
    simp [triggerRequest]
  · intro k uuid
    simp [statusRequest]
  · intro k uuid
    simp [resultsRequest]

/-- Witness for C6: a concrete upload request is identical under two
different api keys, while the status request carries the bearer
header. -/
theorem C6_witness :
    uploadRequest "k1" uT1 mediaPng = uploadRequest "k2" uT1 mediaPng ∧
    authHeader "k" ∈ (statusRequest "k" "T1").headers :=
  ⟨C6_upload_carries_no_auth_header.1 "k1" "k2" uT1 mediaPng,
   C6_upload_carries_no_auth_header.2.2.2.2.1 "k" "T1"⟩

/-! ## C7 -/

/-- Claim C7: prediction-type consistency.  (1) If begin returns a
prediction type different from the entry point's, `_predict_unified`
raises `PredictionTaskBeginError` right after the begin call — the
trace holds no upload call.  (2) A video mime passed to
`predict_image` and (3) an image mime passed to `predict_video` raise
`IncorrectMediaTypeError` with an empty trace — no network call at
all.  (4)/(5) Decoding the final results with prediction type image
(resp. video) can only return an image-typed (resp. video-typed)
value, so the entry point's type is the type of the decoded
result. -/
theorem C7_prediction_type_consistency :
    (∀ (env : ServerEnv) (api_key : String) (media : Media) (model_name : String)
        (prediction_type : PredictionType) (frames_per_second : Option Int) (fuel : Nat)
        (payload : Json) (resp : _PredictionTaskBeginResponse),
      env.beginResult = .ok payload →
      decodeBeginResponse payload = some resp →
      resp.prediction_type ≠ prediction_type →
      Classification._predict_unified env api_key media model_name prediction_type
          frames_per_second fuel
        = some (.error (.predictionTaskBeginError
            ("Prediction type mismatch: " ++ resp.prediction_type.toStr ++ " != " ++
              prediction_type.toStr)),
          [.beginCall (beginRequest api_key media.mime_type frames_per_second)]) ∧
      countUploadCalls [.beginCall (beginRequest api_key media.mime_type frames_per_second)]
        = 0) ∧
    (∀ (env : ServerEnv) (api_key : String) (media : Media) (model_name : String)
        (fuel : Nat),
      mimeMainType media.mime_type = "video" →
      Classification.predict_image env api_key media model_name fuel
        = some (.error (.incorrectMediaTypeError
            "Incorrect media type for predict_image, use predict_video instead"), [])) ∧
    (∀ (env : ServerEnv) (api_key : String) (media : Media) (model_name : String)
        (frames_per_second : Int) (fuel : Nat),
      mimeMainType media.mime_type = "image" →
      Classification.predict_video env api_key media model_name frames_per_second fuel
        = some (.error (.incorrectMediaTypeError
            "Incorrect media type for predict_video, use predict_image instead"), [])) ∧
    (∀ (env : ServerEnv) (uuid : String) (r : ClassificationPredictResponse),
      resultsOutcome env uuid .image = .ok r →
      ∃ ir, r = .image ir) ∧
    (∀ (env : ServerEnv) (uuid : String) (r : ClassificationPredictResponse),
      resultsOutcome env uuid .video = .ok r →
      ∃ vr, r = .video vr) := by
  refine ⟨?_, ?_, ?_, ?_, ?_⟩
  · intro env api_key media model_name prediction_type frames_per_second fuel payload resp
      hb hd hne
    constructor
    · unfold Classification._predict_unified Classification._begin_prediction_task
        beginOutcome
      rw [hb]
      dsimp only
      rw [hd]
      dsimp only
      rw [if_pos hne]
    · rfl
  · intro env api_key media model_name fuel hm
    unfold Classification.predict_image
    rw [hm]
    rfl
  · intro env api_key media model_name frames_per_second fuel hm
    unfold Classification.predict_video
    rw [hm]
    rfl
  · intro env uuid r h
    unfold resultsOutcome at h
    rcases he : env.resultsResult with e | payload <;> rw [he] at h <;> dsimp only at h
    · simp at h
    · cases payload <;> dsimp only at h
      case obj kvs =>
        rcases hdec : decodeImageResponse
            (Json.obj (setKV kvs "prediction_task_uuid" (Json.str uuid))) with _ | r2 <;>
          rw [hdec] at h <;> dsimp only at h
        · simp at h
        · refine ⟨r2, ?_⟩
          injection h with h2
          exact h2.symm
      all_goals simp at h
  · intro env uuid r h
    unfold resultsOutcome at h
    rcases he : env.resultsResult with e | payload <;> rw [he] at h <;> dsimp only at h
    · simp at h
    · cases payload <;> dsimp only at h
      case obj kvs =>
        rcases hdec : decodeVideoResponse
            (Json.obj (setKV kvs "prediction_task_uuid" (Json.str uuid))) with _ | r2 <;>
          rw [hdec] at h <;> dsimp only at h
        · simp at h
        · refine ⟨r2, ?_⟩
          injection h with h2
          exact h2.symm
      all_goals simp at h

/-- A begin payload declaring the `video` prediction type for task
`T1`. -/
def beginPayloadVideoT1 : Json :=
  .obj [("prediction_task_uuid", .str "T1"),
        ("prediction_type", .str "video"),
        ("signed_urls", .arr [.obj [("blob_path", .str "b"),
          ("presigned_post_request", .obj [("url", .str "https://up"),
            ("fields", .obj [("key", .str "v")])])]])]

/-- The begin response `beginPayloadVideoT1` validates to. -/
def beginRespVideoT1 : _PredictionTaskBeginResponse := ⟨"T1", .video, [uT1]⟩

/-- Environment whose begin call answers with the `video` prediction
type. -/
def envC7 : ServerEnv :=
  { envWith (fun _ => "predicted") with beginResult := .ok beginPayloadVideoT1 }

/-- An mp4 video media item. -/
def mediaMp4 : Media := ⟨.bytes [3], "video/mp4"⟩

/-- Witness for C7: begin answering `video` against `predict_image`
faults right after begin, and a video mime passed to `predict_image`
errors with an empty trace. -/
theorem C7_witness :
    Classification._predict_unified envC7 "k" mediaPng "m" .image none 1
      = some (.error (.predictionTaskBeginError "Prediction type mismatch: video != image"),
          [.beginCall (beginRequest "k" "image/png" none)]) ∧
    Classification.predict_image envC7 "k" mediaMp4 "m" 1
      = some (.error (.incorrectMediaTypeError
          "Incorrect media type for predict_image, use predict_video instead"), []) :=
  ⟨(C7_prediction_type_consistency.1 envC7 "k" mediaPng "m" .image none 1
      beginPayloadVideoT1 beginRespVideoT1 rfl rfl (by decide)).1,
   C7_prediction_type_consistency.2.1 envC7 "k" mediaMp4 "m" 1 (by decide)⟩

/-! ## C8 -/

/-- Claim C8: a list of media items mixing embedded bytes and URLs
fails the homogeneity assertion (`AssertionError`) with zero network
calls — the check touches no transport. -/
theorem C8_mixed_media_fails_with_no_network (images : List Image) (i j : Image)
    (hi : i ∈ images) (hj : j ∈ images)
    (hib : i.file_or_bytes.isSome = true) (hiu : i.url = none)
    (hjb : j.file_or_bytes = none) (hju : j.url.isSome = true) :
    assert_consistent_data_type images = (.error .assertionError, []) := by
  unfold assert_consistent_data_type
  have h1 : images.all (fun im => im.file_or_bytes.isSome) = false := by
    cases hall : images.all (fun im => im.file_or_bytes.isSome)
    · rfl
    · have := List.all_eq_true.mp hall j hj
      rw [hjb] at this
      simp at this
  have h2 : images.all (fun im => im.url.isSome) = false := by
    cases hall : images.all (fun im => im.url.isSome)
    · rfl
    · have := List.all_eq_true.mp hall i hi
      rw [hiu] at this
      simp at this
  rw [h1, h2]
  rfl

/-- An image item carrying embedded bytes only. -/
def imgBytes : Image := ⟨some (.bytes [1]), none⟩

/-- An image item carrying a URL only. -/
def imgUrl : Image := ⟨none, some "https://x"⟩

/-- Witness for C8 on a concrete mixed list. -/
theorem C8_witness :
    assert_consistent_data_type [imgBytes, imgUrl] = (.error .assertionError, []) :=
  C8_mixed_media_fails_with_no_network [imgBytes, imgUrl] imgBytes imgUrl
    (by simp) (by simp) rfl rfl rfl rfl

/-! ## C10 -/

/-- Claim C10: with at least one upload target the orchestrator's
`signed_urls[0]` access is in bounds; on a begin response whose
`signed_urls` list is empty, `_predict_unified` fails with the
untyped `IndexError` right after the begin call — an error distinct
from every typed error kind of types/exception.py. -/
theorem C10_empty_signed_urls_is_index_error (env : ServerEnv) (api_key : String)
    (media : Media) (model_name : String) (prediction_type : PredictionType)
    (frames_per_second : Option Int) (fuel : Nat) (payload : Json)
    (resp : _PredictionTaskBeginResponse)
    (hb : env.beginResult = .ok payload)
    (hd : decodeBeginResponse payload = some resp)
    (hty : resp.prediction_type = prediction_type)
    (hurls : resp.signed_urls = []) :
    Classification._predict_unified env api_key media model_name prediction_type
        frames_per_second fuel
      = some (.error .indexError,
          [.beginCall (beginRequest api_key media.mime_type frames_per_second)]) ∧
    (∀ m, PyErr.indexError ≠ PyErr.predictionTaskBeginError m) ∧
    (∀ m, PyErr.indexError ≠ PyErr.predictionUploadError m) ∧
    (∀ m, PyErr.indexError ≠ PyErr.predictionTaskError m) ∧
    (∀ m, PyErr.indexError ≠ PyErr.predictionTaskResultsUnavailableError m) ∧
    (∀ m, PyErr.indexError ≠ PyErr.incorrectMediaTypeError m) ∧
    (∀ resp' : _PredictionTaskBeginResponse, resp'.signed_urls ≠ [] →
      ∃ u, resp'.signed_urls.head? = some u) := by
  refine ⟨?_, by simp, by simp, by simp, by simp, by simp, ?_⟩
  · unfold Classification._predict_unified Classification._begin_prediction_task
      beginOutcome
    rw [hb]
    dsimp only
    rw [hd]
    dsimp only
    rw [hty, hurls]
    simp
  · intro resp' h
    cases hu : resp'.signed_urls with
    | nil => exact absurd hu h
    | cons u rest => exact ⟨u, rfl⟩

/-- A begin payload with an empty `signed_urls` list. -/
def beginPayloadNoUrls : Json :=
  .obj [("prediction_task_uuid", .str "T1"),
        ("prediction_type", .str "image"),
        ("signed_urls", .arr [])]

/-- The begin response `beginPayloadNoUrls` validates to. -/
def beginRespNoUrls : _PredictionTaskBeginResponse := ⟨"T1", .image, []⟩

/-- Environment whose begin call answers with no upload target. -/
def envC10 : ServerEnv :=
  { envWith (fun _ => "predicted") with beginResult := .ok beginPayloadNoUrls }

/-- Witness for C10 on a concrete empty-target begin response. -/
theorem C10_witness :
    Classification._predict_unified envC10 "k" mediaPng "m" .image none 1
      = some (.error .indexError, [.beginCall (beginRequest "k" "image/png" none)]) ∧
    PyErr.indexError ≠ PyErr.predictionTaskBeginError "x" :=
  ⟨(C10_empty_signed_urls_is_index_error envC10 "k" mediaPng "m" .image none 1
      beginPayloadNoUrls beginRespNoUrls rfl rfl rfl rfl).1,
   (C10_empty_signed_urls_is_index_error envC10 "k" mediaPng "m" .image none 1
      beginPayloadNoUrls beginRespNoUrls rfl rfl rfl rfl).2.1 "x"⟩

end Dragoneye
